import Mathlib

/-!
Verification of the `Layoutable` box-layout core (bokehjs `core/layout/layoutable.ts`).

JavaScript numbers are modelled as exact rationals extended with `+Infinity`,
`-Infinity` and `NaN` (`JNum`), with the IEEE-754 / `Math.min` / `Math.max`
special-value rules that the source relies on.  `undefined`/optional fields are
modelled with `Option`.  A thrown `Error` is modelled with `Except Unit`.
-/

set_option autoImplicit false

/-- A JavaScript number: `NaN`, `+Infinity`, `-Infinity` or a finite value
(modelled exactly as a rational). -/
inductive JNum where
  | nan : JNum
  | inf : JNum
  | ninf : JNum
  | fin : ℚ → JNum
  deriving DecidableEq, Repr

namespace JNum

/-- JavaScript unary negation. -/
def jneg : JNum → JNum
  | nan => nan
  | inf => ninf
  | ninf => inf
  | fin a => fin (-a)

/-- JavaScript addition (`NaN` absorbs; `Infinity + -Infinity = NaN`). -/
def jadd : JNum → JNum → JNum
  | nan, _ => nan
  | _, nan => nan
  | inf, ninf => nan
  | ninf, inf => nan
  | inf, _ => inf
  | _, inf => inf
  | ninf, _ => ninf
  | _, ninf => ninf
  | fin a, fin b => fin (a + b)

/-- JavaScript subtraction, `a - b = a + (-b)`. -/
def jsub (a b : JNum) : JNum := jadd a (jneg b)

/-- JavaScript multiplication (`NaN` absorbs; `Infinity * 0 = NaN`, otherwise
signs combine). -/
def jmul : JNum → JNum → JNum
  | nan, _ => nan
  | _, nan => nan
  | inf, inf => inf
  | inf, ninf => ninf
  | ninf, inf => ninf
  | ninf, ninf => inf
  | inf, fin b => if b = 0 then nan else if 0 < b then inf else ninf
  | ninf, fin b => if b = 0 then nan else if 0 < b then ninf else inf
  | fin a, inf => if a = 0 then nan else if 0 < a then inf else ninf
  | fin a, ninf => if a = 0 then nan else if 0 < a then ninf else inf
  | fin a, fin b => fin (a * b)

/-- JavaScript division (`NaN` absorbs; `±Infinity / ±Infinity = NaN`;
`finite / ±Infinity = 0`; `finite / 0` is `NaN` for `0 / 0` and a signed
infinity otherwise; `±Infinity / finite` is a signed infinity). -/
def jdiv : JNum → JNum → JNum
  | nan, _ => nan
  | _, nan => nan
  | inf, inf => nan
  | inf, ninf => nan
  | ninf, inf => nan
  | ninf, ninf => nan
  | inf, fin b => if 0 ≤ b then inf else ninf
  | ninf, fin b => if 0 ≤ b then ninf else inf
  | fin _, inf => fin 0
  | fin _, ninf => fin 0
  | fin a, fin b =>
    if b = 0 then (if a = 0 then nan else if 0 < a then inf else ninf)
    else fin (a / b)

/-- JavaScript `Math.abs`. -/
def jabs : JNum → JNum
  | nan => nan
  | inf => inf
  | ninf => inf
  | fin a => fin |a|

/-- JavaScript `<=` comparison as a boolean (`false` whenever either side is
`NaN`). -/
def jle : JNum → JNum → Bool
  | nan, _ => false
  | _, nan => false
  | ninf, _ => true
  | _, ninf => false
  | _, inf => true
  | inf, _ => false
  | fin a, fin b => decide (a ≤ b)

/-- JavaScript `<` comparison as a boolean (`false` whenever either side is
`NaN`). -/
def jlt : JNum → JNum → Bool
  | nan, _ => false
  | _, nan => false
  | _, ninf => false
  | ninf, _ => true
  | inf, _ => false
  | _, inf => true
  | fin a, fin b => decide (a < b)

/-- JavaScript `Math.min` (`NaN` if either argument is `NaN`). -/
def jmin (a b : JNum) : JNum :=
  match a, b with
  | nan, _ => nan
  | _, nan => nan
  | _, _ => if jle a b then a else b

/-- JavaScript `Math.max` (`NaN` if either argument is `NaN`). -/
def jmax (a b : JNum) : JNum :=
  match a, b with
  | nan, _ => nan
  | _, nan => nan
  | _, _ => if jle a b then b else a

/-- JavaScript `==` on numbers as a boolean (`NaN` is equal to nothing,
itself included). -/
def jeqb : JNum → JNum → Bool
  | nan, _ => false
  | _, nan => false
  | inf, inf => true
  | ninf, ninf => true
  | fin a, fin b => decide (a = b)
  | _, _ => false

end JNum

open JNum

/-- `Size` value type: `{width, height}`. -/
structure Size where
  width : JNum
  height : JNum
  deriving DecidableEq, Repr

/-- `Margin` value type: `{left, top, right, bottom}`. -/
structure Margin where
  left : JNum
  top : JNum
  right : JNum
  bottom : JNum
  deriving DecidableEq, Repr

/-- `SizeHint`: a `Size` plus an optional inner `Margin`. -/
structure SizeHint where
  width : JNum
  height : JNum
  inner : Option Margin := none
  deriving DecidableEq, Repr

/-- `SizingPolicy`: `"fixed" | "fit" | "min" | "max"`. -/
inductive SizingPolicy where
  | fixed : SizingPolicy
  | fit : SizingPolicy
  | min : SizingPolicy
  | max : SizingPolicy
  deriving DecidableEq, Repr

/-- `BoxSizing`: the fully-defaulted per-element sizing configuration. -/
structure BoxSizing where
  width_policy : SizingPolicy
  min_width : JNum
  width : Option JNum
  max_width : JNum
  height_policy : SizingPolicy
  min_height : JNum
  height : Option JNum
  max_height : JNum
  aspect : Option JNum
  margin : Margin
  deriving DecidableEq, Repr

/-- `Partial<BoxSizing>`: every field optional, as accepted by `set_sizing`. -/
structure PartialBoxSizing where
  width_policy : Option SizingPolicy := none
  min_width : Option JNum := none
  width : Option JNum := none
  max_width : Option JNum := none
  height_policy : Option SizingPolicy := none
  min_height : Option JNum := none
  height : Option JNum := none
  max_height : Option JNum := none
  aspect : Option JNum := none
  margin : Option Margin := none
  deriving DecidableEq, Repr

/-- `Partial<Size>`: both fields optional, as accepted by `compute`. -/
structure PartialSize where
  width : Option JNum := none
  height : Option JNum := none
  deriving DecidableEq, Repr

/-- Modelled from the spec: the `BBox` rectangle value type from `util/bbox`
is not under `src/`; section 6 of the spec describes it as an opaque immutable
value supporting construction from `{left, top, width, height}` or
`{left, top, right, bottom}` and exposing `left/top/width/height/right/bottom`
accessors.  It is represented by its `left`, `top`, `width`, `height`. -/
structure BBox where
  left : JNum
  top : JNum
  width : JNum
  height : JNum
  deriving DecidableEq, Repr

/-- Modelled from the spec: `BBox` construction from `{left, top, width, height}`. -/
def BBox.fromLTWH (left top width height : JNum) : BBox :=
  ⟨left, top, width, height⟩

/-- Modelled from the spec: `BBox` construction from `{left, top, right, bottom}`,
where `width = right - left` and `height = bottom - top`. -/
def BBox.fromLTRB (left top right bottom : JNum) : BBox :=
  ⟨left, top, jsub right left, jsub bottom top⟩

/-- The state of a `Layoutable` element: its sizing configuration, its current
bounding box, and the element-specific abstract content-measurement hook
`_measure` (a subclass supplies it; per the spec's purity contract it is a
function of the viewport it receives). -/
structure Elem where
  sizing : BoxSizing
  bbox : BBox
  hook : Size → SizeHint

namespace Layoutable

/-- `set_sizing`: defaults every absent field (`width_policy`/`height_policy`
to `"fit"`, mins to `0`, maxes to `Infinity`, `margin` to all-zero; `width`,
`height` and `aspect` stay optional) and replaces the configuration wholesale.
The default `_init` hook does nothing. -/
def set_sizing (e : Elem) (sizing : PartialBoxSizing) : Elem :=
  { e with sizing :=
    { width_policy := sizing.width_policy.getD SizingPolicy.fit
      min_width := sizing.min_width.getD (fin 0)
      width := sizing.width
      max_width := sizing.max_width.getD inf
      height_policy := sizing.height_policy.getD SizingPolicy.fit
      min_height := sizing.min_height.getD (fin 0)
      height := sizing.height
      max_height := sizing.max_height.getD inf
      aspect := sizing.aspect
      margin := sizing.margin.getD ⟨fin 0, fin 0, fin 0, fin 0⟩ } }

/-- `set_geometry(outer, inner)` with the default `_set_geometry` hook: stores
`outer` as the element's bounding box (the inner box, defaulted to `outer`
when absent, is passed to the hook and discarded by the default hook). -/
def set_geometry (e : Elem) (outer : BBox) (inner : Option BBox) : Elem :=
  let _inner : BBox := inner.getD outer
  { e with bbox := outer }

/-- `clip_width`: `max(min_width, min(width, max_width))`. -/
def clip_width (e : Elem) (width : JNum) : JNum :=
  jmax e.sizing.min_width (jmin width e.sizing.max_width)

/-- `clip_height`: `max(min_height, min(height, max_height))`. -/
def clip_height (e : Elem) (height : JNum) : JNum :=
  jmax e.sizing.min_height (jmin height e.sizing.max_height)

/-- `clip_size`: clips both axes. -/
def clip_size (e : Elem) (s : Size) : Size :=
  ⟨clip_width e s.width, clip_height e s.height⟩

/-- `apply_aspect(viewport, {width, height})`.  With no aspect configured the
size passes through.  With an aspect and both policies non-fixed, the two
candidates and their L1 distances to the viewport are compared.  With exactly
one policy fixed, the corresponding branch recomputes one dimension.  With
both policies fixed it throws (`Error("unrechable")`). -/
def apply_aspect (e : Elem) (viewport : Size) (s : Size) : Except Unit Size :=
  match e.sizing.aspect with
  | none => Except.ok s
  | some aspect =>
    if e.sizing.width_policy ≠ SizingPolicy.fixed ∧
       e.sizing.height_policy ≠ SizingPolicy.fixed then
      let w_width := s.width
      let w_height := jdiv s.width aspect
      let h_width := jmul s.height aspect
      let h_height := s.height
      let w_diff := jadd (jabs (jsub viewport.width w_width))
                         (jabs (jsub viewport.height w_height))
      let h_diff := jadd (jabs (jsub viewport.width h_width))
                         (jabs (jsub viewport.height h_height))
      if jle w_diff h_diff then Except.ok ⟨w_width, w_height⟩
      else Except.ok ⟨h_width, h_height⟩
    else if e.sizing.width_policy ≠ SizingPolicy.fixed then
      Except.ok ⟨s.width, jdiv s.width aspect⟩
    else if e.sizing.height_policy ≠ SizingPolicy.fixed then
      Except.ok ⟨jmul s.height aspect, s.height⟩
    else
      Except.error ()

/-- The working viewport inside `measure`: the raw viewport clipped through
`clip_size`, then each axis whose policy is `"fixed"` and whose explicit value
is configured overridden with that explicit value. -/
def clipped_viewport (e : Elem) (viewport : Size) : Size :=
  let clipped := clip_size e viewport
  { width :=
      match e.sizing.width_policy, e.sizing.width with
      | SizingPolicy.fixed, some w => w
      | _, _ => clipped.width
    height :=
      match e.sizing.height_policy, e.sizing.height with
      | SizingPolicy.fixed, some h => h
      | _, _ => clipped.height }

/-- The pre-aspect size inside `measure`: per axis, the explicit value when the
policy is `"fixed"` and the value is configured, otherwise the hook's measured
value. -/
def pre_aspect (e : Elem) (computed : SizeHint) : Size :=
  { width :=
      match e.sizing.width_policy, e.sizing.width with
      | SizingPolicy.fixed, some w => w
      | _, _ => computed.width
    height :=
      match e.sizing.height_policy, e.sizing.height with
      | SizingPolicy.fixed, some h => h
      | _, _ => computed.height }

/-- `measure(viewport)`: clip and override the viewport, call `_measure`,
reconcile the per-axis final size through `apply_aspect`, and return it with
the hook's inner margin unchanged.  Propagates the `apply_aspect` exception. -/
def measure (e : Elem) (viewport : Size) : Except Unit SizeHint :=
  let clipped := clipped_viewport e viewport
  let computed := e.hook clipped
  match apply_aspect e clipped (pre_aspect e computed) with
  | Except.ok s => Except.ok ⟨s.width, s.height, computed.inner⟩
  | Except.error u => Except.error u

/-- `measure` in state-passing form: the method reads the sizing configuration
and local variables only, so the element state it returns is the state it was
given. -/
def measureOp (e : Elem) (viewport : Size) : Except Unit (SizeHint × Elem) :=
  (measure e viewport).map (fun r => (r, e))

/-- The viewport `compute` actually measures with: each missing dimension
defaults to `Infinity`. -/
def effective_viewport (viewport : Option PartialSize) : Size :=
  { width :=
      match viewport with
      | some vp => vp.width.getD inf
      | none => inf
    height :=
      match viewport with
      | some vp => vp.height.getD inf
      | none => inf }

/-- `compute(viewport?)`: measure with the defaulted viewport, build the outer
box at the origin, derive the inner box from the inner margin when present
(its right/bottom edges inset from the outer box's far edges), and commit via
`set_geometry`.  Propagates the `measure` exception (the bounding box is then
left unchanged). -/
def compute (e : Elem) (viewport : Option PartialSize) : Except Unit Elem :=
  match measure e (effective_viewport viewport) with
  | Except.error u => Except.error u
  | Except.ok size_hint =>
    let outer := BBox.fromLTWH (fin 0) (fin 0) size_hint.width size_hint.height
    let inner : Option BBox :=
      match size_hint.inner with
      | some m =>
        some (BBox.fromLTRB m.left m.top (jsub size_hint.width m.right)
               (jsub size_hint.height m.bottom))
      | none => none
    Except.ok (set_geometry e outer inner)

end Layoutable

/-- `LayoutItem._measure`: returns the viewport's own dimensions when they are
not `Infinity`, and `0` for a dimension that is still `Infinity`. -/
def layoutItem_measure (viewport : Size) : SizeHint :=
  { width := if jeqb viewport.width inf then fin 0 else viewport.width
    height := if jeqb viewport.height inf then fin 0 else viewport.height
    inner := none }

/-- The fully-defaulted `BoxSizing` produced by `set_sizing({})`. -/
def default_sizing : BoxSizing :=
  { width_policy := SizingPolicy.fit
    min_width := fin 0
    width := none
    max_width := inf
    height_policy := SizingPolicy.fit
    min_height := fin 0
    height := none
    max_height := inf
    aspect := none
    margin := ⟨fin 0, fin 0, fin 0, fin 0⟩ }

/-- A freshly-constructed `LayoutItem` with default sizing: bounding box is
the zero box at the origin. -/
def layout_item : Elem :=
  { sizing := default_sizing
    bbox := ⟨fin 0, fin 0, fin 0, fin 0⟩
    hook := layoutItem_measure }

/-- Equality of `Except` results is decidable when both component types have
decidable equality (used to evaluate the model at concrete inputs). -/
instance {ε α : Type} [DecidableEq ε] [DecidableEq α] : DecidableEq (Except ε α) := fun x y =>
  match x, y with
  | Except.ok a, Except.ok b =>
    if h : a = b then Decidable.isTrue (by rw [h])
    else Decidable.isFalse (fun hc => h (Except.ok.inj hc))
  | Except.error a, Except.error b =>
    if h : a = b then Decidable.isTrue (by rw [h])
    else Decidable.isFalse (fun hc => h (Except.error.inj hc))
  | Except.ok _, Except.error _ => Decidable.isFalse (fun hc => Except.noConfusion hc)
  | Except.error _, Except.ok _ => Decidable.isFalse (fun hc => Except.noConfusion hc)

/-- The L1 distance of a candidate size to the viewport, as the spec words it:
the sum of the absolute width-delta and the absolute height-delta. -/
def l1_dist (viewport candidate : Size) : JNum :=
  jadd (jabs (jsub viewport.width candidate.width))
       (jabs (jsub viewport.height candidate.height))

/-- `measure` as the spec words it (claim-side definition): clip the viewport,
override each fixed-with-explicit-value axis, call the hook, take the explicit
value per fixed axis with a configured value and the hook's measured value
otherwise, reconcile through `apply_aspect`, and return the hook's inner
margin unchanged. -/
def measure_spec (e : Elem) (viewport : Size) : Except Unit SizeHint :=
  let clipped := Layoutable.clip_size e viewport
  let working : Size :=
    { width :=
        if e.sizing.width_policy = SizingPolicy.fixed ∧ (e.sizing.width).isSome
        then (e.sizing.width).getD clipped.width else clipped.width
      height :=
        if e.sizing.height_policy = SizingPolicy.fixed ∧ (e.sizing.height).isSome
        then (e.sizing.height).getD clipped.height else clipped.height }
  let computed := e.hook working
  let final : Size :=
    { width :=
        if e.sizing.width_policy = SizingPolicy.fixed ∧ (e.sizing.width).isSome
        then (e.sizing.width).getD computed.width else computed.width
      height :=
        if e.sizing.height_policy = SizingPolicy.fixed ∧ (e.sizing.height).isSome
        then (e.sizing.height).getD computed.height else computed.height }
  match Layoutable.apply_aspect e working final with
  | Except.ok s => Except.ok ⟨s.width, s.height, computed.inner⟩
  | Except.error u => Except.error u

/-- A `LayoutItem` configured with `width_policy = "fixed"`, `width = 50` and
`aspect = 2` (the height axis keeps the default `"fit"` policy). -/
def ex_fixed_width : Elem :=
  { sizing :=
    { default_sizing with
      width_policy := SizingPolicy.fixed
      width := some (fin 50)
      aspect := some (fin 2) }
    bbox := ⟨fin 0, fin 0, fin 0, fin 0⟩
    hook := layoutItem_measure }

/-- A `LayoutItem` configured with `height_policy = "fixed"`, `height = 40`
and `aspect = 2` (the width axis keeps the default `"fit"` policy). -/
def ex_fixed_height : Elem :=
  { sizing :=
    { default_sizing with
      height_policy := SizingPolicy.fixed
      height := some (fin 40)
      aspect := some (fin 2) }
    bbox := ⟨fin 0, fin 0, fin 0, fin 0⟩
    hook := layoutItem_measure }

/-- A `LayoutItem` configured with `aspect = 2` and both policies left at the
default `"fit"`. -/
def ex_aspect : Elem :=
  { sizing := { default_sizing with aspect := some (fin 2) }
    bbox := ⟨fin 0, fin 0, fin 0, fin 0⟩
    hook := layoutItem_measure }

/-- A `LayoutItem` configured with both policies `"fixed"` (widths `30`/`20`)
and `aspect = 2`: the impossible aspect constraint. -/
def ex_both_fixed : Elem :=
  { sizing :=
    { default_sizing with
      width_policy := SizingPolicy.fixed
      width := some (fin 30)
      height_policy := SizingPolicy.fixed
      height := some (fin 20)
      aspect := some (fin 2) }
    bbox := ⟨fin 0, fin 0, fin 0, fin 0⟩
    hook := layoutItem_measure }

/-- An element whose content-measurement hook reports a `100 × 60` footprint
with an inner margin `{left 10, top 5, right 7, bottom 3}`. -/
def margin_item : Elem :=
  { sizing := default_sizing
    bbox := ⟨fin 0, fin 0, fin 0, fin 0⟩
    hook := fun _ => ⟨fin 100, fin 60, some ⟨fin 10, fin 5, fin 7, fin 3⟩⟩ }

/-- `layout_item` after `compute({width: 120, height: 40})`: the same element
with the committed `120 × 40` bounding box at the origin. -/
def item_placed : Elem :=
  { layout_item with bbox := ⟨fin 0, fin 0, fin 120, fin 40⟩ }

namespace JNum

@[simp]
theorem jneg_fin (a : ℚ) : jneg (fin a) = fin (-a) := rfl

@[simp]
theorem jadd_fin (a b : ℚ) : jadd (fin a) (fin b) = fin (a + b) := rfl

@[simp]
theorem jsub_fin (a b : ℚ) : jsub (fin a) (fin b) = fin (a - b) := by
  simp [jsub, sub_eq_add_neg]

@[simp]
theorem jmul_fin (a b : ℚ) : jmul (fin a) (fin b) = fin (a * b) := rfl

@[simp]
theorem jdiv_fin (a : ℚ) {b : ℚ} (h : b ≠ 0) : jdiv (fin a) (fin b) = fin (a / b) := by
  simp [jdiv, h]

@[simp]
theorem jabs_fin (a : ℚ) : jabs (fin a) = fin |a| := rfl

@[simp]
theorem jle_fin (a b : ℚ) : jle (fin a) (fin b) = decide (a ≤ b) := rfl

@[simp]
theorem jlt_fin (a b : ℚ) : jlt (fin a) (fin b) = decide (a < b) := rfl

@[simp]
theorem jeqb_fin (a b : ℚ) : jeqb (fin a) (fin b) = decide (a = b) := rfl

@[simp]
theorem jeqb_fin_inf (a : ℚ) : jeqb (fin a) inf = false := rfl

@[simp]
theorem jle_fin_inf (a : ℚ) : jle (fin a) inf = true := rfl

@[simp]
theorem jle_inf_fin (a : ℚ) : jle inf (fin a) = false := rfl

@[simp]
theorem jmin_fin_inf (a : ℚ) : jmin (fin a) inf = fin a := rfl

@[simp]
theorem jmax_fin_inf (a : ℚ) : jmax (fin a) inf = inf := rfl

theorem jle_true_left_ne_nan {a b : JNum} (h : jle a b = true) : a ≠ nan := by
  cases a <;> cases b <;> simp_all [jle]

theorem jle_true_right_ne_nan {a b : JNum} (h : jle a b = true) : b ≠ nan := by
  cases a <;> cases b <;> simp_all [jle]

theorem jlt_true_left_ne_nan {a b : JNum} (h : jlt a b = true) : a ≠ nan := by
  cases a <;> cases b <;> simp_all [jlt]

theorem jlt_true_right_ne_nan {a b : JNum} (h : jlt a b = true) : b ≠ nan := by
  cases a <;> cases b <;> simp_all [jlt]

theorem jle_refl {a : JNum} (h : a ≠ nan) : jle a a = true := by
  cases a <;> simp_all [jle]

theorem not_jle_of_jlt {a b : JNum} (h : jlt a b = true) : jle b a = false := by
  cases a <;> cases b <;> simp_all [jlt, jle] <;> linarith

theorem jle_total {a b : JNum} (ha : a ≠ nan) (hb : b ≠ nan) :
    jle a b = true ∨ jle b a = true := by
  cases a <;> cases b <;> simp_all [jle] <;> exact le_total _ _

theorem jle_trans {a b c : JNum} (h1 : jle a b = true) (h2 : jle b c = true) :
    jle a c = true := by
  cases a <;> cases b <;> cases c <;> simp_all [jle] <;> linarith

theorem jmin_eq_left {a b : JNum} (h : jle a b = true) : jmin a b = a := by
  cases a <;> cases b <;> simp_all [jmin, jle]

theorem jmin_eq_right {a b : JNum} (ha : a ≠ nan) (hb : b ≠ nan) (h : jle a b = false) :
    jmin a b = b := by
  cases a <;> cases b <;> simp_all [jmin, jle]

theorem jmax_eq_right {a b : JNum} (h : jle a b = true) : jmax a b = b := by
  cases a <;> cases b <;> simp_all [jmax, jle]

theorem jmax_eq_left {a b : JNum} (ha : a ≠ nan) (hb : b ≠ nan) (h : jle a b = false) :
    jmax a b = a := by
  cases a <;> cases b <;> simp_all [jmax, jle]

/-- Clamp identity: a value between the bounds passes through. -/
theorem clamp_id {m M v : JNum} (h1 : jle m v = true) (h2 : jle v M = true) :
    jmax m (jmin v M) = v := by
  rw [jmin_eq_left h2, jmax_eq_right h1]

/-- Clamp from below: a value under the floor lands on the floor. -/
theorem clamp_below {m M v : JNum} (hM : M ≠ nan) (h : jlt v m = true) :
    jmax m (jmin v M) = m := by
  have hv : v ≠ nan := jlt_true_left_ne_nan h
  have hm : m ≠ nan := jlt_true_right_ne_nan h
  have hmv : jle m v = false := not_jle_of_jlt h
  cases hle : jle v M with
  | true => rw [jmin_eq_left hle, jmax_eq_left hm hv hmv]
  | false =>
    rw [jmin_eq_right hv hM hle]
    have hMv : jle M v = true := by
      rcases jle_total hv hM with h' | h'
      · rw [h'] at hle; exact absurd hle (by simp)
      · exact h'
    have hmM : jle m M = false := by
      cases h' : jle m M with
      | true => rw [jle_trans h' hMv] at hmv; exact absurd hmv (by simp)
      | false => rfl
    rw [jmax_eq_left hm hM hmM]

/-- Clamp from above (with ordered bounds): a value over the ceiling lands on
the ceiling. -/
theorem clamp_above {m M v : JNum} (hmM : jle m M = true) (h : jlt M v = true) :
    jmax m (jmin v M) = M := by
  have hv : v ≠ nan := jlt_true_right_ne_nan h
  have hM : M ≠ nan := jlt_true_left_ne_nan h
  rw [jmin_eq_right hv hM (not_jle_of_jlt h), jmax_eq_right hmM]

/-- Degenerate clamp: with the floor above the ceiling, every non-`NaN` value
lands on the floor. -/
theorem clamp_inverted {m M v : JNum} (hv : v ≠ nan) (h : jlt M m = true) :
    jmax m (jmin v M) = m := by
  have hM : M ≠ nan := jlt_true_left_ne_nan h
  have hm : m ≠ nan := jlt_true_right_ne_nan h
  have hMm : jle m M = false := not_jle_of_jlt h
  cases hle : jle v M with
  | true =>
    rw [jmin_eq_left hle]
    have hmv : jle m v = false := by
      cases h' : jle m v with
      | true => rw [jle_trans h' hle] at hMm; exact absurd hMm (by simp)
      | false => rfl
    rw [jmax_eq_left hm hv hmv]
  | false => rw [jmin_eq_right hv hM hle, jmax_eq_left hm hM hMm]

end JNum

/-- C7: `clip_width`/`clip_height` compute `max(min, min(value, max))`; a value
between the bounds passes through unchanged, a value under the floor lands on
the floor, a value over the ceiling lands on the ceiling (given ordered
bounds), and with the floor above the ceiling the result is the floor;
`clip_size` applies the two per axis. -/
theorem C7_clip_clamp (e : Elem) (v : JNum)
    (hmw : e.sizing.min_width ≠ nan) (hMw : e.sizing.max_width ≠ nan)
    (hmh : e.sizing.min_height ≠ nan) (hMh : e.sizing.max_height ≠ nan) :
    (Layoutable.clip_width e v = jmax e.sizing.min_width (jmin v e.sizing.max_width) ∧
     Layoutable.clip_height e v = jmax e.sizing.min_height (jmin v e.sizing.max_height)) ∧
    (jle e.sizing.min_width v = true → jle v e.sizing.max_width = true →
      Layoutable.clip_width e v = v) ∧
    (jlt v e.sizing.min_width = true → Layoutable.clip_width e v = e.sizing.min_width) ∧
    (jle e.sizing.min_width e.sizing.max_width = true →
     jlt e.sizing.max_width v = true →
      Layoutable.clip_width e v = e.sizing.max_width) ∧
    (v ≠ nan → jlt e.sizing.max_width e.sizing.min_width = true →
      Layoutable.clip_width e v = e.sizing.min_width) ∧
    (jle e.sizing.min_height v = true → jle v e.sizing.max_height = true →
      Layoutable.clip_height e v = v) ∧
    (jlt v e.sizing.min_height = true → Layoutable.clip_height e v = e.sizing.min_height) ∧
    (jle e.sizing.min_height e.sizing.max_height = true →
     jlt e.sizing.max_height v = true →
      Layoutable.clip_height e v = e.sizing.max_height) ∧
    (v ≠ nan → jlt e.sizing.max_height e.sizing.min_height = true →
      Layoutable.clip_height e v = e.sizing.min_height) ∧
    (∀ s : Size,
      Layoutable.clip_size e s = ⟨Layoutable.clip_width e s.width, Layoutable.clip_height e s.height⟩) := by
  refine ⟨⟨rfl, rfl⟩, ?_, ?_, ?_, ?_, ?_, ?_, ?_, ?_, fun s => rfl⟩
  · exact fun h1 h2 => clamp_id h1 h2
  · exact fun h => clamp_below hMw h
  · exact fun h1 h2 => clamp_above h1 h2
  · exact fun hv h => clamp_inverted hv h
  · exact fun h1 h2 => clamp_id h1 h2
  · exact fun h => clamp_below hMh h
  · exact fun h1 h2 => clamp_above h1 h2
  · exact fun hv h => clamp_inverted hv h

/-- C7 witness: on `layout_item` (floor `0`, ceiling `Infinity`) the value `5`
is inside the bounds on both axes and passes through both clips unchanged. -/
theorem C7_clip_clamp_witness :
    Layoutable.clip_width layout_item (fin 5) = fin 5 ∧
    Layoutable.clip_height layout_item (fin 5) = fin 5 := by
  have h := C7_clip_clamp layout_item (fin 5)
    (by decide) (by decide) (by decide) (by decide)
  exact ⟨h.2.1 (by decide) (by decide), h.2.2.2.2.2.1 (by decide) (by decide)⟩

/-- `set_geometry` rewrites only the bounding box, so a later `measure` (which
reads the sizing configuration and the hook) is unaffected. -/
theorem measure_set_geometry (e : Elem) (o : BBox) (i : Option BBox) (v : Size) :
    Layoutable.measure (Layoutable.set_geometry e o i) v = Layoutable.measure e v := rfl

/-- Propagating `apply_aspect`'s result through `measure`'s return matches
`Except.map`. -/
theorem except_match_map (x : Except Unit Size) (i : Option Margin) :
    (match x with
     | Except.ok s => Except.ok (⟨s.width, s.height, i⟩ : SizeHint)
     | Except.error u => Except.error u) = x.map (fun s => ⟨s.width, s.height, i⟩) := by
  cases x <;> rfl

/-- With an aspect configured and both policies fixed, `apply_aspect` throws
for every viewport and every candidate size. -/
theorem apply_aspect_error_of_both_fixed (e : Elem)
    (ha : (e.sizing.aspect).isSome = true)
    (hw : e.sizing.width_policy = SizingPolicy.fixed)
    (hh : e.sizing.height_policy = SizingPolicy.fixed) :
    ∀ vp s : Size, Layoutable.apply_aspect e vp s = Except.error () := by
  intro vp s
  obtain ⟨r, hr⟩ := Option.isSome_iff_exists.mp ha
  simp [Layoutable.apply_aspect, hr, hw, hh]

/-- C3: with an aspect ratio configured and both policies `"fixed"`,
`apply_aspect` (and therefore `measure` and `compute`) throws; with at least
one policy non-fixed it returns a size; with no aspect configured it returns
the candidate size unchanged. -/
theorem C3_both_fixed_throws (e : Elem) (vp s : Size) :
    ((e.sizing.aspect).isSome = true → e.sizing.width_policy = SizingPolicy.fixed →
      e.sizing.height_policy = SizingPolicy.fixed →
      Layoutable.apply_aspect e vp s = Except.error () ∧
      Layoutable.measure e vp = Except.error () ∧
      ∀ pv : Option PartialSize, Layoutable.compute e pv = Except.error ()) ∧
    (¬(e.sizing.width_policy = SizingPolicy.fixed ∧
       e.sizing.height_policy = SizingPolicy.fixed) →
      ∃ t : Size, Layoutable.apply_aspect e vp s = Except.ok t) ∧
    (e.sizing.aspect = none → Layoutable.apply_aspect e vp s = Except.ok s) := by
  refine ⟨?_, ?_, ?_⟩
  · intro ha hw hh
    have herr := apply_aspect_error_of_both_fixed e ha hw hh
    have hmeas : ∀ v : Size, Layoutable.measure e v = Except.error () := by
      intro v
      unfold Layoutable.measure
      simp only [herr]
    refine ⟨herr vp s, hmeas vp, ?_⟩
    intro pv
    unfold Layoutable.compute
    simp only [hmeas]
  · intro hnot
    unfold Layoutable.apply_aspect
    cases ha : e.sizing.aspect with
    | none => exact ⟨s, rfl⟩
    | some r =>
      by_cases hw : e.sizing.width_policy = SizingPolicy.fixed
      · have hh : ¬e.sizing.height_policy = SizingPolicy.fixed := fun hh => hnot ⟨hw, hh⟩
        simp [hw, hh]
      · by_cases hh : e.sizing.height_policy = SizingPolicy.fixed
        · simp [hw, hh]
        · simp only [hw, hh]
          split
          · split
            · exact ⟨_, rfl⟩
            · exact ⟨_, rfl⟩
          · simp [hw, hh]
  · intro ha
    unfold Layoutable.apply_aspect
    rw [ha]

/-- C3 witness: the impossible configuration (`ex_both_fixed`) throws in
`apply_aspect`, `measure` and `compute`; the free configuration (`ex_aspect`)
returns a size. -/
theorem C3_both_fixed_throws_witness :
    Layoutable.apply_aspect ex_both_fixed ⟨fin 10, fin 10⟩ ⟨fin 30, fin 20⟩ =
      Except.error () ∧
    Layoutable.measure ex_both_fixed ⟨fin 10, fin 10⟩ = Except.error () ∧
    Layoutable.compute ex_both_fixed none = Except.error () ∧
    ∃ t : Size, Layoutable.apply_aspect ex_aspect ⟨fin 10, fin 10⟩ ⟨fin 30, fin 20⟩ =
      Except.ok t := by
  obtain ⟨h1, h2, h3⟩ :=
    (C3_both_fixed_throws ex_both_fixed ⟨fin 10, fin 10⟩ ⟨fin 30, fin 20⟩).1 rfl rfl rfl
  refine ⟨h1, h2, h3 none, ?_⟩
  exact (C3_both_fixed_throws ex_aspect ⟨fin 10, fin 10⟩ ⟨fin 30, fin 20⟩).2.1 (by decide)

/-- C2: with an aspect `r` and both policies non-fixed, `apply_aspect` returns
the candidate (`A` keeps the width, `B` keeps the height) whose L1 distance to
the viewport is smaller, preferring candidate `A` on an exact (non-`NaN`)
tie. -/
theorem C2_aspect_distance (e : Elem) (vp s : Size) (r : JNum)
    (ha : e.sizing.aspect = some r)
    (hw : e.sizing.width_policy ≠ SizingPolicy.fixed)
    (hh : e.sizing.height_policy ≠ SizingPolicy.fixed) :
    Layoutable.apply_aspect e vp s =
      Except.ok
        (if jle (l1_dist vp ⟨s.width, jdiv s.width r⟩)
                (l1_dist vp ⟨jmul s.height r, s.height⟩) = true
         then ⟨s.width, jdiv s.width r⟩
         else ⟨jmul s.height r, s.height⟩) ∧
    (l1_dist vp ⟨s.width, jdiv s.width r⟩ ≠ nan →
      l1_dist vp ⟨s.width, jdiv s.width r⟩ = l1_dist vp ⟨jmul s.height r, s.height⟩ →
      Layoutable.apply_aspect e vp s = Except.ok ⟨s.width, jdiv s.width r⟩) := by
  have hmain :
      Layoutable.apply_aspect e vp s =
        Except.ok
          (if jle (l1_dist vp ⟨s.width, jdiv s.width r⟩)
                  (l1_dist vp ⟨jmul s.height r, s.height⟩) = true
           then ⟨s.width, jdiv s.width r⟩
           else ⟨jmul s.height r, s.height⟩) := by
    unfold Layoutable.apply_aspect
    rw [ha]
    simp only [hw, hh, ne_eq, not_false_iff, and_self, if_true, l1_dist]
    split
    · rfl
    · rfl
  refine ⟨hmain, ?_⟩
  intro hnan heq
  rw [hmain, heq, if_pos (jle_refl (heq ▸ hnan))]

/-- C2 witness: `aspect = 2`, viewport `{100, 100}`, measured `{80, 80}`: both
candidates are at L1 distance `80` and the width-preserving candidate
`{80, 40}` is returned. -/
theorem C2_aspect_distance_witness :
    l1_dist ⟨fin 100, fin 100⟩ ⟨fin 80, fin 40⟩ = fin 80 ∧
    l1_dist ⟨fin 100, fin 100⟩ ⟨fin 160, fin 80⟩ = fin 80 ∧
    Layoutable.apply_aspect ex_aspect ⟨fin 100, fin 100⟩ ⟨fin 80, fin 80⟩ =
      Except.ok ⟨fin 80, fin 40⟩ := by
  have hA : l1_dist ⟨fin 100, fin 100⟩ ⟨fin 80, fin 40⟩ = fin 80 := by
    norm_num [l1_dist]
  have hB : l1_dist ⟨fin 100, fin 100⟩ ⟨fin 160, fin 80⟩ = fin 80 := by
    norm_num [l1_dist]
  have h := (C2_aspect_distance ex_aspect ⟨fin 100, fin 100⟩ ⟨fin 80, fin 80⟩ (fin 2)
    rfl (by decide) (by decide)).2 (by norm_num [l1_dist]; decide)
    (by norm_num [l1_dist])
  refine ⟨hA, hB, h.trans ?_⟩
  norm_num

/-- Evaluation of `measure` on `ex_fixed_width` at viewport `{100, 100}`: the
hook measures height `100`, and `apply_aspect` overwrites the fixed width with
`height * aspect = 200`. -/
theorem measure_ex_fixed_width_eval :
    Layoutable.measure ex_fixed_width ⟨fin 100, fin 100⟩ =
      Except.ok ⟨fin 200, fin 100, none⟩ := by
  norm_num [Layoutable.measure, Layoutable.clipped_viewport, Layoutable.pre_aspect,
    Layoutable.apply_aspect, Layoutable.clip_size, Layoutable.clip_width,
    Layoutable.clip_height, ex_fixed_width, default_sizing, layoutItem_measure,
    jmin, jmax, jeqb]
  simp

/-- C1 counterexample: `aspect = 2`, `width_policy = "fixed"`, `width = 50`,
height policy `"fit"`: at viewport `{100, 100}` the code returns
`{width: 200, height: 100}` (the fixed width is overwritten), not the claimed
`{width: 50, height: 25}`. -/
theorem C1_fixed_axis_counterexample :
    Layoutable.measure ex_fixed_width ⟨fin 100, fin 100⟩ =
      Except.ok ⟨fin 200, fin 100, none⟩ ∧
    Layoutable.measure ex_fixed_width ⟨fin 100, fin 100⟩ ≠
      Except.ok ⟨fin 50, fin 25, none⟩ := by
  refine ⟨measure_ex_fixed_width_eval, ?_⟩
  rw [measure_ex_fixed_width_eval]
  intro hc
  have h1 : (⟨fin 200, fin 100, none⟩ : SizeHint) = ⟨fin 50, fin 25, none⟩ :=
    Except.ok.inj hc
  have h2 : (200 : ℚ) = 50 := by
    have := congrArg SizeHint.width h1
    simpa using this
  norm_num at h2

/-- C1 amended: with an aspect `r` and exactly one axis's policy `"fixed"`,
`apply_aspect` skips the distance comparison, keeps the free axis's dimension
and derives the other (fixed) axis from it: with the width fixed and the
height free the result is `{width: height * r, height}`, and with the height
fixed and the width free it is `{width, height: width / r}`; `measure` hence
keeps the hook's measured value on the free axis and derives the fixed axis
from it, with the inner margin unchanged. -/
theorem C1_fixed_axis_amended (e : Elem) (vp : Size) (r : JNum)
    (ha : e.sizing.aspect = some r) :
    (e.sizing.width_policy = SizingPolicy.fixed →
     e.sizing.height_policy ≠ SizingPolicy.fixed →
      (∀ s : Size,
        Layoutable.apply_aspect e vp s = Except.ok ⟨jmul s.height r, s.height⟩) ∧
      Layoutable.measure e vp =
        Except.ok
          ⟨jmul (e.hook (Layoutable.clipped_viewport e vp)).height r,
           (e.hook (Layoutable.clipped_viewport e vp)).height,
           (e.hook (Layoutable.clipped_viewport e vp)).inner⟩) ∧
    (e.sizing.width_policy ≠ SizingPolicy.fixed →
     e.sizing.height_policy = SizingPolicy.fixed →
      (∀ s : Size,
        Layoutable.apply_aspect e vp s = Except.ok ⟨s.width, jdiv s.width r⟩) ∧
      Layoutable.measure e vp =
        Except.ok
          ⟨(e.hook (Layoutable.clipped_viewport e vp)).width,
           jdiv (e.hook (Layoutable.clipped_viewport e vp)).width r,
           (e.hook (Layoutable.clipped_viewport e vp)).inner⟩) := by
  constructor
  · intro hw hh
    have haa' : ∀ vp' s : Size,
        Layoutable.apply_aspect e vp' s = Except.ok ⟨jmul s.height r, s.height⟩ := by
      intro vp' s
      unfold Layoutable.apply_aspect
      rw [ha]
      simp [hw, hh]
    refine ⟨haa' vp, ?_⟩
    unfold Layoutable.measure
    simp only [haa']
    have hpre :
        (Layoutable.pre_aspect e (e.hook (Layoutable.clipped_viewport e vp))).height =
          (e.hook (Layoutable.clipped_viewport e vp)).height := by
      unfold Layoutable.pre_aspect
      cases hp : e.sizing.height_policy <;> cases hv : e.sizing.height <;> simp_all
    rw [hpre]
  · intro hw hh
    have haa' : ∀ vp' s : Size,
        Layoutable.apply_aspect e vp' s = Except.ok ⟨s.width, jdiv s.width r⟩ := by
      intro vp' s
      unfold Layoutable.apply_aspect
      rw [ha]
      simp [hw, hh]
    refine ⟨haa' vp, ?_⟩
    unfold Layoutable.measure
    simp only [haa']
    have hpre :
        (Layoutable.pre_aspect e (e.hook (Layoutable.clipped_viewport e vp))).width =
          (e.hook (Layoutable.clipped_viewport e vp)).width := by
      unfold Layoutable.pre_aspect
      cases hp : e.sizing.width_policy <;> cases hv : e.sizing.width <;> simp_all
    rw [hpre]

/-- C1 witness for the amended claim, both orientations: `ex_fixed_width`
(width fixed at `50`, `aspect = 2`) at viewport `{100, 100}` keeps the free
height `100` and derives `width = 200`; `ex_fixed_height` (height fixed at
`40`, `aspect = 2`) keeps the free width `100` and derives `height = 50`. -/
theorem C1_fixed_axis_amended_witness :
    Layoutable.apply_aspect ex_fixed_width ⟨fin 100, fin 100⟩ ⟨fin 50, fin 100⟩ =
      Except.ok ⟨fin 200, fin 100⟩ ∧
    Layoutable.measure ex_fixed_width ⟨fin 100, fin 100⟩ =
      Except.ok ⟨fin 200, fin 100, none⟩ ∧
    Layoutable.apply_aspect ex_fixed_height ⟨fin 100, fin 100⟩ ⟨fin 100, fin 40⟩ =
      Except.ok ⟨fin 100, fin 50⟩ ∧
    Layoutable.measure ex_fixed_height ⟨fin 100, fin 100⟩ =
      Except.ok ⟨fin 100, fin 50, none⟩ := by
  have hW := (C1_fixed_axis_amended ex_fixed_width ⟨fin 100, fin 100⟩ (fin 2) rfl).1
    rfl (by decide)
  have hH := (C1_fixed_axis_amended ex_fixed_height ⟨fin 100, fin 100⟩ (fin 2) rfl).2
    (by decide) rfl
  refine ⟨(hW.1 ⟨fin 50, fin 100⟩).trans (by norm_num), hW.2.trans ?_,
    (hH.1 ⟨fin 100, fin 40⟩).trans (by norm_num), hH.2.trans ?_⟩
  · norm_num [ex_fixed_width, Layoutable.clipped_viewport, Layoutable.clip_size,
      Layoutable.clip_width, Layoutable.clip_height, default_sizing,
      layoutItem_measure, jmin, jmax, jeqb]
  · norm_num [ex_fixed_height, Layoutable.clipped_viewport, Layoutable.clip_size,
      Layoutable.clip_width, Layoutable.clip_height, default_sizing,
      layoutItem_measure, jmin, jmax, jeqb]

/-- C4: `measure` follows the spec's protocol: clip the viewport, override each
`"fixed"`-with-explicit-value axis before calling the hook, per axis take the
explicit value exactly when the policy is `"fixed"` and the value is present
(else the hook's measured value), reconcile through `apply_aspect`, and return
the hook's inner margin unchanged. -/
theorem C4_measure_protocol (e : Elem) (vp : Size) :
    Layoutable.measure e vp = measure_spec e vp := by
  unfold Layoutable.measure measure_spec Layoutable.clipped_viewport Layoutable.pre_aspect
  cases hw : e.sizing.width_policy <;> cases hWv : e.sizing.width <;>
    cases hh : e.sizing.height_policy <;> cases hHv : e.sizing.height <;>
      simp [hw, hWv, hh, hHv]

/-- C5: `measure` never mutates the element: the state it hands back is the
state it was given, so the bounding box after a `measure` equals the bounding
box before it; `set_sizing` also leaves the bounding box untouched (only
`compute`/`set_geometry` rewrite it). -/
theorem C5_measure_no_mutation (e : Elem) (vp : Size) :
    (∀ (r : SizeHint) (e' : Elem),
      Layoutable.measureOp e vp = Except.ok (r, e') → e'.bbox = e.bbox) ∧
    (∀ p : PartialBoxSizing, (Layoutable.set_sizing e p).bbox = e.bbox) := by
  constructor
  · intro r e' h
    unfold Layoutable.measureOp at h
    cases hm : Layoutable.measure e vp with
    | ok v =>
      rw [hm] at h
      simp [Except.map] at h
      rw [← h.2]
    | error u =>
      rw [hm] at h
      simp [Except.map] at h
  · intro p
    rfl

/-- C5 witness: measuring `layout_item` at viewport `{5, 5}` returns the
element state unchanged, so the bounding box is the one from before the
call. -/
theorem C5_measure_no_mutation_witness :
    Layoutable.measureOp layout_item ⟨fin 5, fin 5⟩ =
      Except.ok (⟨fin 5, fin 5, none⟩, layout_item) ∧
    layout_item.bbox = layout_item.bbox := by
  refine ⟨rfl, ?_⟩
  exact (C5_measure_no_mutation layout_item ⟨fin 5, fin 5⟩).1 ⟨fin 5, fin 5, none⟩
    layout_item rfl

/-- C6: `compute` is idempotent on the committed geometry: a second `compute`
with the same viewport (and unchanged sizing) commits an identical bounding
box, because `measure` depends only on the sizing configuration and the hook,
not on the bounding box the first call wrote. -/
theorem C6_compute_idempotent (e : Elem) (vp : Option PartialSize) (e1 e2 : Elem)
    (h1 : Layoutable.compute e vp = Except.ok e1)
    (h2 : Layoutable.compute e1 vp = Except.ok e2) :
    e2.bbox = e1.bbox := by
  unfold Layoutable.compute at h1 h2
  cases hm : Layoutable.measure e (Layoutable.effective_viewport vp) with
  | error u =>
    rw [hm] at h1
    exact absurd h1 (by simp)
  | ok hint =>
    rw [hm] at h1
    simp only [Except.ok.injEq] at h1
    have hm1 : Layoutable.measure e1 (Layoutable.effective_viewport vp) =
        Except.ok hint := by
      rw [← h1, measure_set_geometry]
      exact hm
    rw [hm1] at h2
    simp only [Except.ok.injEq] at h2
    rw [← h2, ← h1]
    rfl

/-- C6 witness: computing `layout_item` twice at viewport
`{width: 120, height: 40}` commits the same `120 × 40` bounding box both
times. -/
theorem C6_compute_idempotent_witness :
    Layoutable.compute layout_item (some ⟨some (fin 120), some (fin 40)⟩) =
      Except.ok item_placed ∧
    Layoutable.compute item_placed (some ⟨some (fin 120), some (fin 40)⟩) =
      Except.ok item_placed ∧
    item_placed.bbox = item_placed.bbox := by
  refine ⟨rfl, rfl, ?_⟩
  exact C6_compute_idempotent layout_item (some ⟨some (fin 120), some (fin 40)⟩)
    item_placed item_placed rfl rfl

/-- C8: the reference leaf with default sizing: an unbounded viewport measures
to `{0, 0}`, a `{120, 40}` viewport measures to `{120, 40}`, and
`compute({width: 120, height: 40})` commits the bounding box
`{left: 0, top: 0, width: 120, height: 40}` with no inner box (the size hint
carries no inner margin). -/
theorem C8_reference_leaf :
    Layoutable.measure layout_item ⟨inf, inf⟩ = Except.ok ⟨fin 0, fin 0, none⟩ ∧
    Layoutable.measure layout_item ⟨fin 120, fin 40⟩ =
      Except.ok ⟨fin 120, fin 40, none⟩ ∧
    (Layoutable.compute layout_item (some ⟨some (fin 120), some (fin 40)⟩)).map
      Elem.bbox = Except.ok ⟨fin 0, fin 0, fin 120, fin 40⟩ ∧
    (Layoutable.measure layout_item
        (Layoutable.effective_viewport (some ⟨some (fin 120), some (fin 40)⟩))).map
      SizeHint.inner = Except.ok none :=
  ⟨rfl, rfl, rfl, rfl⟩

/-- C9: `compute` defaults each missing viewport dimension to `Infinity`,
builds the outer box at the origin from the measured size, derives the inner
box (when an inner margin exists) with its right/bottom edges inset from the
outer box's far edges (`width - right`, `height - bottom`), and commits both
through `set_geometry`. -/
theorem C9_compute_commit (e : Elem) (vp : Option PartialSize) (hint : SizeHint)
    (h : Layoutable.measure e (Layoutable.effective_viewport vp) = Except.ok hint) :
    Layoutable.compute e vp =
      Except.ok (Layoutable.set_geometry e
        (BBox.fromLTWH (fin 0) (fin 0) hint.width hint.height)
        (Option.map
          (fun m => BBox.fromLTRB m.left m.top (jsub hint.width m.right)
            (jsub hint.height m.bottom)) hint.inner)) ∧
    Layoutable.effective_viewport none = ⟨inf, inf⟩ ∧
    (∀ pw ph : Option JNum,
      Layoutable.effective_viewport (some ⟨pw, ph⟩) = ⟨pw.getD inf, ph.getD inf⟩) := by
  refine ⟨?_, rfl, fun pw ph => rfl⟩
  unfold Layoutable.compute
  rw [h]
  cases hi : hint.inner <;> simp [hi, Option.map]

/-- C9 witness: `margin_item` (hook footprint `100 × 60`, inner margin
`{10, 5, 7, 3}`) computed with no viewport commits the outer box
`{0, 0, 100, 60}` and the inner box built from `left 10, top 5,
right 100 - 7, bottom 60 - 3`. -/
theorem C9_compute_commit_witness :
    Layoutable.compute margin_item none =
      Except.ok (Layoutable.set_geometry margin_item
        (BBox.fromLTWH (fin 0) (fin 0) (fin 100) (fin 60))
        (some (BBox.fromLTRB (fin 10) (fin 5) (jsub (fin 100) (fin 7))
          (jsub (fin 60) (fin 3))))) := by
  exact (C9_compute_commit margin_item none
    ⟨fin 100, fin 60, some ⟨fin 10, fin 5, fin 7, fin 3⟩⟩ rfl).1

/-- C10: `set_sizing` writes only the sizing configuration: the bounding box
and the hook are untouched, and the stored configuration is the fully
defaulted one (policies `"fit"`, mins `0`, maxes `Infinity`, zero margin when
the corresponding fields are absent; `width`/`height`/`aspect` kept
optional). -/
theorem C10_set_sizing_frame (e : Elem) (p : PartialBoxSizing) :
    (Layoutable.set_sizing e p).bbox = e.bbox ∧
    (Layoutable.set_sizing e p).hook = e.hook ∧
    (Layoutable.set_sizing e p).sizing =
      { width_policy := p.width_policy.getD SizingPolicy.fit
        min_width := p.min_width.getD (fin 0)
        width := p.width
        max_width := p.max_width.getD inf
        height_policy := p.height_policy.getD SizingPolicy.fit
        min_height := p.min_height.getD (fin 0)
        height := p.height
        max_height := p.max_height.getD inf
        aspect := p.aspect
        margin := p.margin.getD ⟨fin 0, fin 0, fin 0, fin 0⟩ } :=
  ⟨rfl, rfl, rfl⟩
